import Mathlib

/-!
Verification of the airline-booking serverless handlers
(`reserve-booking/reserve.py`, `confirm-booking/confirm.py`,
`collect-payment/collect.py`) against their specification.

Each handler is embedded as a pure function.  External effects are made
explicit:
* the DynamoDB booking table is a map `Store := String → Option Item`,
  where an `Item` is a schemaless attribute list as in DynamoDB;
* every outward interaction (configuration lookup, put, update, S3 upload,
  sleep) is recorded in an event trace;
* the random draws consumed by a handler invocation (`random.random()`,
  `uuid.uuid4()`, `secrets.token_urlsafe`) are passed in explicitly;
* Python exceptions become `Except` errors.
-/

namespace Airline

/-- A DynamoDB attribute value (string, number or boolean). -/
inductive AttrVal where
  | S (s : String)
  | N (n : ℚ)
  | B (b : Bool)
deriving DecidableEq, Repr

/-- A schemaless DynamoDB item: a list of attribute-name/value pairs. -/
abbrev Item := List (String × AttrVal)

/-- Read an attribute from an item. -/
def getAttr (item : Item) (attr : String) : Option AttrVal :=
  (item.find? (fun p => p.1 == attr)).map (·.2)

/-- `SET attr = v` on an item, as DynamoDB `update_item` does. -/
def setAttr (item : Item) (attr : String) (v : AttrVal) : Item :=
  (attr, v) :: item.filter (fun p => p.1 != attr)

/-- Apply a list of `SET` clauses in order. -/
def setAttrs (item : Item) (attrs : List (String × AttrVal)) : Item :=
  attrs.foldl (fun it p => setAttr it p.1 p.2) item

/-- The booking table, keyed by the `id` attribute. -/
abbrev Store := String → Option Item

/-- `table.put_item(Item=item)`: store the item under its `id` attribute. -/
def tablePut (st : Store) (item : Item) : Store :=
  match getAttr item "id" with
  | some (AttrVal.S k) => fun x => if x = k then some item else st x
  | _ => st

/-- `n` repetitions of the same `put_item` call. -/
def tablePutN (st : Store) (item : Item) : ℕ → Store
  | 0 => st
  | n + 1 => tablePutN (tablePut st item) item n

/-- Unconditional `update_item`: DynamoDB creates the item from its key when
it is absent, otherwise applies the `SET` clauses to the existing item. -/
def tableUpdateUncond (st : Store) (key : String) (attrs : List (String × AttrVal)) : Store :=
  fun x =>
    if x = key then some (setAttrs ((st key).getD [("id", AttrVal.S key)]) attrs)
    else st x

/-- `update_item` with condition expression `id = :idVal`: fails (with
`ConditionalCheckFailedException`, leaving the table unchanged) when the item
is absent or its `id` attribute differs from `idVal`. -/
def tableUpdateCondIdEq (st : Store) (key idVal : String) (attrs : List (String × AttrVal)) :
    Except Unit Store :=
  match st key with
  | none => Except.error ()
  | some item =>
      if getAttr item "id" == some (AttrVal.S idVal) then
        Except.ok (fun x => if x = key then some (setAttrs item attrs) else st x)
      else Except.error ()

/-- One externally visible action of a handler invocation. -/
inductive Event where
  | configLookup (configId attrName : String)
  | putItem (item : Item)
  | updateItem (key : String)
  | s3Upload (bucket objKey : String)
  | sleep (duration : ℚ)
deriving DecidableEq, Repr

/-- Store-mutating interactions (booking-table writes and object uploads). -/
def Event.isStoreWrite : Event → Bool
  | putItem _ => true
  | updateItem _ => true
  | s3Upload _ _ => true
  | _ => false

/-- Booking-table inserts. -/
def Event.isPut : Event → Bool
  | putItem _ => true
  | _ => false

/-- The configuration lookups contained in a trace, in order. -/
def configReadsOf (tr : List Event) : List (String × String) :=
  tr.filterMap fun e =>
    match e with
    | Event.configLookup a b => some (a, b)
    | _ => none

/-- The errors a handler invocation can raise. -/
inductive HandlerError where
  | cancelRequest
  | invalidRequest (message : String)
  | reservationFailed
  | confirmationFailed
  | paymentFailed
  | pythonKeyError
deriving DecidableEq, Repr

/-- The remote configuration values read by the handlers
(`configuration_table` entries, typed as the code uses them). -/
structure Env where
  anomalyModeActivate : Bool
  cancelModeActivate : Bool
  cancelModeProb : ℚ
  reserveDowProb : ℚ
  reserveUpdateItemProb : ℚ
  confirmProb : ℚ
  paymentProb : ℚ
  paymentSleepDuration : ℚ

/-- Result of one handler invocation: the event trace, the final booking
table, and the returned value or raised error. -/
structure StepOutcome (α : Type) where
  trace : List Event
  store : Store
  result : Except HandlerError α

/-- Embedding of the Python expression `x == True & y == True`.  `&` binds
tighter than `==`, so Python reads it as the chained comparison
`x == (True & y) == True`, i.e. `(x == (True & y)) and ((True & y) == True)`. -/
def pyEqTrueAndChain (x y : Bool) : Bool :=
  (x == (true && y)) && ((true && y) == true)

theorem pyEqTrueAndChain_eq_and (x y : Bool) : pyEqTrueAndChain x y = (x && y) := by
  cases x <;> cases y <;> rfl

/-! ## Reservation handler (`reserve.py`) -/

/-- The Step Functions event received by the reservation handler; each field
is `none` when the corresponding key is absent from the event dict. -/
structure ReserveEvent where
  outboundFlightId : Option String
  customerId : Option String
  chargeId : Option String
  name : Option String
deriving DecidableEq, Repr

/-- `is_booking_request_valid`: the three required keys are present
(`all(x in booking for x in [...])` checks presence only). -/
def is_booking_request_valid (booking : ReserveEvent) : Bool :=
  booking.outboundFlightId.isSome && booking.customerId.isSome && booking.chargeId.isSome

/-- The random values consumed by one reservation invocation, in draw order,
together with the generated UUID and the creation timestamp string. -/
structure ReserveRandoms where
  dowDraw : ℚ
  updateItemDraw : ℚ
  tieDraw : ℚ
  cancelDraw : ℚ
  bookingId : String
  createdAt : String

/-- `dow_executeAnomaly` before the mutual-exclusion tie-break:
`anomaly_mode == True & dow_anomaluseExecution == True`. -/
def dow_executeAnomaly0 (env : Env) (r : ReserveRandoms) : Bool :=
  pyEqTrueAndChain env.anomalyModeActivate (decide (r.dowDraw < env.reserveDowProb))

/-- `update_item_executeAnomaly` before the mutual-exclusion tie-break. -/
def update_item_executeAnomaly0 (env : Env) (r : ReserveRandoms) : Bool :=
  pyEqTrueAndChain env.anomalyModeActivate (decide (r.updateItemDraw < env.reserveUpdateItemProb))

/-- `if update_item_executeAnomaly and dow_executeAnomaly: ...` — when both
anomaly variants were chosen, a coin flip (`random.random() < 0.5`) disables
one of them.  Returns `(dow_executeAnomaly, update_item_executeAnomaly)`. -/
def reserveTieBreak (dow0 ui0 : Bool) (tieDraw : ℚ) : Bool × Bool :=
  if ui0 && dow0 then
    if tieDraw < mkRat 1 2 then (dow0, false) else (false, ui0)
  else (dow0, ui0)

/-- The three decisions computed by `reserve.py`'s `lambda_handler`. -/
structure ReserveDecisions where
  dow : Bool
  updateItem : Bool
  cancel : Bool
deriving DecidableEq, Repr

/-- Anomaly and cancel decisions of one reservation invocation. -/
def reserveDecisions (env : Env) (r : ReserveRandoms) : ReserveDecisions :=
  let p := reserveTieBreak (dow_executeAnomaly0 env r) (update_item_executeAnomaly0 env r) r.tieDraw
  { dow := p.1
    updateItem := p.2
    cancel := pyEqTrueAndChain env.cancelModeActivate (decide (r.cancelDraw < env.cancelModeProb)) }

/-- The fixed, unrelated key targeted by the update-instead-of-insert anomaly. -/
def reserveFixedKey : String := "bf313090-82f4-4698-8eb8-29489f242c7d"

/-- The `booking_item` dict built by `reserve_booking`. -/
def bookingItem (stateExecutionId outboundFlightId customerId paymentToken
    bookingId createdAt : String) : Item :=
  [("id", AttrVal.S bookingId),
   ("stateExecutionId", AttrVal.S stateExecutionId),
   ("__typename", AttrVal.S "Booking"),
   ("bookingOutboundFlightId", AttrVal.S outboundFlightId),
   ("checkedIn", AttrVal.B false),
   ("customer", AttrVal.S customerId),
   ("paymentToken", AttrVal.S paymentToken),
   ("status", AttrVal.S "UNCONFIRMED"),
   ("createdAt", AttrVal.S createdAt)]

/-- `reserve_booking`: builds the UNCONFIRMED booking item; the
update-instead-of-insert anomaly sets `num_of_oper = 0` and issues an
unconditional update of `checkedIn` on the fixed unrelated key; the
denial-of-wallet anomaly sets `num_of_oper = 20`; then the item is put
`num_of_oper` times.  Accessing a missing event key raises `KeyError`,
which the `except ClientError` clause does not catch. -/
def reserve_booking (st : Store) (booking : ReserveEvent) (dow ui : Bool)
    (bookingId createdAt : String) : StepOutcome String :=
  match booking.name, booking.outboundFlightId, booking.customerId, booking.chargeId with
  | some nm, some ofid, some cid, some tok =>
      let item := bookingItem nm ofid cid tok bookingId createdAt
      let numOfOper : ℕ := 1
      let step : List Event × Store × ℕ :=
        if ui then
          ([Event.updateItem reserveFixedKey],
           tableUpdateUncond st reserveFixedKey [("checkedIn", AttrVal.B true)], 0)
        else ([], st, numOfOper)
      let numOfOper := if dow then 20 else step.2.2
      { trace := step.1 ++ List.replicate numOfOper (Event.putItem item)
        store := tablePutN step.2.1 item numOfOper
        result := Except.ok bookingId }
  | _, _, _, _ => { trace := [], store := st, result := Except.error HandlerError.pythonKeyError }

/-- The configuration lookups `reserve.py`'s `lambda_handler` performs, in
program order, before any other externally visible action. -/
def reserveConfigReads : List Event :=
  [Event.configLookup "anomaly_mode" "Activate",
   Event.configLookup "Airline-ReserveBooking-master-DOW" "anomaly_prob",
   Event.configLookup "Airline-ReserveBooking-master-UpdateItem" "anomaly_prob",
   Event.configLookup "cancel_mode" "Activate",
   Event.configLookup "cancel_mode" "Prob"]

/-- `lambda_handler` of `reserve.py`: config lookups and decisions, the
simulated-cancellation raise, request validation, then `reserve_booking`. -/
def reserve_lambda_handler (env : Env) (st : Store) (event : ReserveEvent)
    (r : ReserveRandoms) : StepOutcome String :=
  let d := reserveDecisions env r
  if d.cancel then
    { trace := reserveConfigReads, store := st, result := Except.error HandlerError.cancelRequest }
  else if !is_booking_request_valid event then
    { trace := reserveConfigReads, store := st,
      result := Except.error (HandlerError.invalidRequest "Invalid booking request") }
  else
    let step := reserve_booking st event d.dow d.updateItem r.bookingId r.createdAt
    { trace := reserveConfigReads ++ step.trace, store := step.store, result := step.result }

/-! ## Confirmation handler (`confirm.py`) -/

/-- The URL-safe base64 alphabet used by `secrets.token_urlsafe`. -/
def b64UrlAlphabet : List Char :=
  "ABCDEFGHIJKLMNOPQRSTUVWXYZabcdefghijklmnopqrstuvwxyz0123456789-_".toList

/-- The base64url character of a 6-bit value. -/
def b64Char (n : ℕ) : Char := b64UrlAlphabet.getD n 'A'

/-- URL-safe base64 of a byte list with the `=` padding stripped, as
`base64.urlsafe_b64encode(...).rstrip(b'=')` produces. -/
def b64UrlEncodeNoPad : List ℕ → List Char
  | [] => []
  | [a] => [b64Char (a / 4), b64Char (a % 4 * 16)]
  | [a, b] => [b64Char (a / 4), b64Char (a % 4 * 16 + b / 16), b64Char (b % 16 * 4)]
  | a :: b :: c :: rest =>
      b64Char (a / 4) :: b64Char (a % 4 * 16 + b / 16) ::
        b64Char (b % 16 * 4 + c / 64) :: b64Char (c % 64) :: b64UrlEncodeNoPad rest

/-- `secrets.token_urlsafe` applied to the given random bytes
(`token_urlsafe(4)` passes 4 bytes). -/
def token_urlsafe (bytes : List ℕ) : String := String.mk (b64UrlEncodeNoPad bytes)

/-- The random values consumed by one confirmation invocation: the
per-handler anomaly draw, the variant-selection draw (`randNum`), the cancel
draw, and the 4 random bytes of the booking reference. -/
structure ConfirmRandoms where
  primaryDraw : ℚ
  variantDraw : ℚ
  cancelDraw : ℚ
  tokenBytes : List ℕ

/-- The decisions computed by `confirm.py`'s `lambda_handler`:
`DLexecuteAnomaly` (data leakage), `PMexecuteAnomaly` (configuration
misuse), `executeCancel`. -/
structure ConfirmDecisions where
  dataLeak : Bool
  configMisuse : Bool
  cancel : Bool
deriving DecidableEq, Repr

/-- Anomaly and cancel decisions of one confirmation invocation.
`DLanomaluseExecution`/`PManomaluseExecution` start `False` and are set from
`randNum` only when the per-handler draw triggered. -/
def confirmDecisions (env : Env) (r : ConfirmRandoms) : ConfirmDecisions :=
  let anomaluseExecution := decide (r.primaryDraw < env.confirmProb)
  let dlDraw := anomaluseExecution && decide (r.variantDraw < mkRat 1 2)
  let pmDraw := anomaluseExecution && decide (r.variantDraw > mkRat 1 2)
  { dataLeak := pyEqTrueAndChain env.anomalyModeActivate dlDraw
    configMisuse := pyEqTrueAndChain env.anomalyModeActivate pmDraw
    cancel := pyEqTrueAndChain env.cancelModeActivate (decide (r.cancelDraw < env.cancelModeProb)) }

/-- `confirm_booking`: conditional update of `status`/`bookingReference`
with condition `id = :idVal`; a `ConditionalCheckFailedException` becomes a
`BookingConfirmationException` and skips the anomaly actions; on success the
data-leakage upload and/or misuse config read run before returning the
reference. -/
def confirm_booking (st : Store) (booking_id : String) (dl pm : Bool)
    (tokenBytes : List ℕ) : StepOutcome String :=
  let reference := token_urlsafe tokenBytes
  match tableUpdateCondIdEq st booking_id booking_id
      [("bookingReference", AttrVal.S reference), ("status", AttrVal.S "CONFIRMED")] with
  | Except.error _ =>
      { trace := [Event.updateItem booking_id], store := st,
        result := Except.error HandlerError.confirmationFailed }
  | Except.ok st1 =>
      { trace := [Event.updateItem booking_id]
          ++ (if dl then
                [Event.s3Upload "amplify-public-bucket" ("confirm_leak_" ++ booking_id ++ ".csv")]
              else [])
          ++ (if pm then [Event.configLookup "anomaly_mode" "Activate"] else [])
        store := st1
        result := Except.ok reference }

/-- The Step Functions event received by the confirmation handler. -/
structure ConfirmEvent where
  bookingId : Option String
deriving DecidableEq, Repr

/-- The configuration lookups `confirm.py`'s `lambda_handler` performs, in
program order, before any other externally visible action. -/
def confirmConfigReads : List Event :=
  [Event.configLookup "anomaly_mode" "Activate",
   Event.configLookup "Airline-ConfirmBooking-master" "anomaly_prob",
   Event.configLookup "cancel_mode" "Activate",
   Event.configLookup "cancel_mode" "Prob"]

/-- `event.get("bookingId")` is falsy when absent or the empty string. -/
def confirmRequestValid (event : ConfirmEvent) : Bool :=
  match event.bookingId with
  | none => false
  | some s => !(s == "")

/-- `lambda_handler` of `confirm.py`: config lookups and decisions, the
simulated-cancellation raise, `if not booking_id` validation, then
`confirm_booking`. -/
def confirm_lambda_handler (env : Env) (st : Store) (event : ConfirmEvent)
    (r : ConfirmRandoms) : StepOutcome String :=
  let d := confirmDecisions env r
  if d.cancel then
    { trace := confirmConfigReads, store := st, result := Except.error HandlerError.cancelRequest }
  else
    match event.bookingId with
    | none =>
        { trace := confirmConfigReads, store := st,
          result := Except.error (HandlerError.invalidRequest "Invalid booking ID") }
    | some bid =>
        if bid = "" then
          { trace := confirmConfigReads, store := st,
            result := Except.error (HandlerError.invalidRequest "Invalid booking ID") }
        else
          let step := confirm_booking st bid d.dataLeak d.configMisuse r.tokenBytes
          { trace := confirmConfigReads ++ step.trace, store := step.store, result := step.result }

/-! ## Payment handler (`collect.py`) -/

/-- The random values consumed by one payment invocation. -/
structure PaymentRandoms where
  anomalyDraw : ℚ
  cancelDraw : ℚ

/-- The Step Functions event received by the payment handler. -/
structure PaymentEvent where
  chargeId : Option String
  customerId : Option String
deriving DecidableEq, Repr

/-- The value returned by `collect_payment`. -/
structure PaymentReceipt where
  receiptUrl : String
  price : ℕ
deriving DecidableEq, Repr

/-- `collect_payment`: the real payment-API call is commented out; a fixed
receipt URL and price are returned. -/
def collect_payment (_charge_id : String) : PaymentReceipt :=
  { receiptUrl := "test.com", price := 10 }

/-- The decisions computed by `collect.py`'s `lambda_handler`:
`dowED_executeAnomaly = anomaly_mode & dowED_anomaluseExecution` (a plain
conjunction here) and `executeCancel`. -/
structure PaymentDecisions where
  dowED : Bool
  cancel : Bool
deriving DecidableEq, Repr

/-- Anomaly and cancel decisions of one payment invocation. -/
def paymentDecisions (env : Env) (r : PaymentRandoms) : PaymentDecisions :=
  { dowED := env.anomalyModeActivate && decide (r.anomalyDraw < env.paymentProb)
    cancel := pyEqTrueAndChain env.cancelModeActivate (decide (r.cancelDraw < env.cancelModeProb)) }

/-- `event.get("chargeId")` is falsy when absent or the empty string. -/
def paymentRequestValid (event : PaymentEvent) : Bool :=
  match event.chargeId with
  | none => false
  | some s => !(s == "")

/-- The configuration lookups `collect.py`'s `lambda_handler` performs, in
program order, before any other externally visible action. -/
def paymentConfigReads : List Event :=
  [Event.configLookup "anomaly_mode" "Activate",
   Event.configLookup "Airline-CollectPayment-master" "anomaly_prob",
   Event.configLookup "Airline-CollectPayment-master" "sleep_duration",
   Event.configLookup "cancel_mode" "Activate",
   Event.configLookup "cancel_mode" "Prob"]

/-- `lambda_handler` of `collect.py`: config lookups and decisions, the
simulated-cancellation raise, the extended-sleep anomaly, `if not
pre_authorization_token` validation, then the stubbed `collect_payment`. -/
def payment_lambda_handler (env : Env) (st : Store) (event : PaymentEvent)
    (r : PaymentRandoms) : StepOutcome PaymentReceipt :=
  let d := paymentDecisions env r
  if d.cancel then
    { trace := paymentConfigReads, store := st, result := Except.error HandlerError.cancelRequest }
  else
    let sleepTrace := if d.dowED then [Event.sleep env.paymentSleepDuration] else []
    match event.chargeId with
    | none =>
        { trace := paymentConfigReads ++ sleepTrace, store := st,
          result := Except.error (HandlerError.invalidRequest "Invalid Charge ID") }
    | some cid =>
        if cid = "" then
          { trace := paymentConfigReads ++ sleepTrace, store := st,
            result := Except.error (HandlerError.invalidRequest "Invalid Charge ID") }
        else
          { trace := paymentConfigReads ++ sleepTrace, store := st,
            result := Except.ok (collect_payment cid) }

/-! ## Helper lemmas -/

theorem find?_filter_ne (item : Item) (attr other : String) (h : other ≠ attr) :
    (item.filter (fun p => p.1 != attr)).find? (fun p => p.1 == other)
      = item.find? (fun p => p.1 == other) := by
  induction item with
  | nil => rfl
  | cons hd tl ih =>
      by_cases hhd : hd.1 = attr
      · simp [List.filter_cons, List.find?_cons, hhd, Ne.symm h, ih]
      · by_cases h2 : hd.1 = other
        · simp [List.filter_cons, List.find?_cons, hhd, h2, h]
        · simp [List.filter_cons, List.find?_cons, hhd, h2, ih]

theorem getAttr_setAttr_same (item : Item) (attr : String) (v : AttrVal) :
    getAttr (setAttr item attr v) attr = some v := by
  simp [getAttr, setAttr]

theorem getAttr_setAttr_ne (item : Item) (attr other : String) (v : AttrVal)
    (h : other ≠ attr) : getAttr (setAttr item attr v) other = getAttr item other := by
  simp [getAttr, setAttr, List.find?_cons, Ne.symm h, find?_filter_ne item attr other h]

theorem token_urlsafe_length_four (a b c d : ℕ) :
    (token_urlsafe [a, b, c, d]).length = 6 := by
  simp [token_urlsafe, b64UrlEncodeNoPad, String.length]

theorem reserveTieBreak_not_both (a b : Bool) (t : ℚ) :
    ¬((reserveTieBreak a b t).1 = true ∧ (reserveTieBreak a b t).2 = true) := by
  rcases lt_or_le t (mkRat 1 2) with hlt | hle
  · cases a <;> cases b <;> simp [reserveTieBreak, hlt]
  · have hnlt : ¬(t < mkRat 1 2) := not_lt.mpr hle
    cases a <;> cases b <;> simp [reserveTieBreak, hnlt]

theorem reserveDecisions_not_both (env : Env) (r : ReserveRandoms) :
    ¬((reserveDecisions env r).dow = true ∧ (reserveDecisions env r).updateItem = true) := by
  have hx := reserveTieBreak_not_both (dow_executeAnomaly0 env r)
    (update_item_executeAnomaly0 env r) r.tieDraw
  simpa [reserveDecisions] using hx

theorem reserveDecisions_ui_imp_not_dow (env : Env) (r : ReserveRandoms)
    (h : (reserveDecisions env r).updateItem = true) :
    (reserveDecisions env r).dow = false := by
  rcases Bool.eq_false_or_eq_true (reserveDecisions env r).dow with hd | hd
  · exact absurd ⟨hd, h⟩ (reserveDecisions_not_both env r)
  · exact hd

theorem reserveDecisions_dow_imp_not_ui (env : Env) (r : ReserveRandoms)
    (h : (reserveDecisions env r).dow = true) :
    (reserveDecisions env r).updateItem = false := by
  rcases Bool.eq_false_or_eq_true (reserveDecisions env r).updateItem with hu | hu
  · exact absurd ⟨h, hu⟩ (reserveDecisions_not_both env r)
  · exact hu

theorem decide_lt_or_gt_eq_ne (v w : ℚ) :
    (decide (v < w) || decide (v > w)) = decide (¬ v = w) := by
  show (decide (v < w) || decide (w < v)) = decide (¬ v = w)
  rcases lt_trichotomy v w with h | h | h
  · simp [h, h.ne]
  · simp [h]
  · simp [h, h.ne', not_lt_of_gt h]

theorem bool_or_factor (m a x y : Bool) :
    ((m && (a && x)) || (m && (a && y))) = (m && (a && (x || y))) := by
  cases m <;> cases a <;> cases x <;> cases y <;> rfl

theorem bool_and_pair_false (m a x y : Bool) (hxy : (x && y) = false) :
    ((m && (a && x)) && (m && (a && y))) = false := by
  cases m <;> cases a <;> cases x <;> cases y <;> simp_all

/-! ## Concrete fixtures used by witnesses and counterexamples -/

/-- The empty booking table. -/
def emptyStore : Store := fun _ => none

/-- Configuration with anomaly mode off and cancel mode certain to trigger. -/
def cancelEnv : Env :=
  { anomalyModeActivate := false, cancelModeActivate := true, cancelModeProb := 1,
    reserveDowProb := 0, reserveUpdateItemProb := 0, confirmProb := 0,
    paymentProb := 0, paymentSleepDuration := 0 }

/-- Configuration with anomaly and cancel modes both off. -/
def quietEnv : Env :=
  { anomalyModeActivate := false, cancelModeActivate := false, cancelModeProb := 0,
    reserveDowProb := 0, reserveUpdateItemProb := 0, confirmProb := 0,
    paymentProb := 0, paymentSleepDuration := 0 }

/-- Reservation randoms with all draws at 0. -/
def rRes0 : ReserveRandoms :=
  { dowDraw := 0, updateItemDraw := 0, tieDraw := 0, cancelDraw := 0,
    bookingId := "booking-1", createdAt := "2020-01-01 00:00:00" }

/-- Confirmation randoms with all draws at 0 and four zero token bytes. -/
def rCon0 : ConfirmRandoms :=
  { primaryDraw := 0, variantDraw := 0, cancelDraw := 0, tokenBytes := [0, 0, 0, 0] }

/-- Payment randoms with all draws at 0. -/
def rPay0 : PaymentRandoms := { anomalyDraw := 0, cancelDraw := 0 }

/-- A fully populated reservation event. -/
def evRes0 : ReserveEvent :=
  { outboundFlightId := some "FL1", customerId := some "C1",
    chargeId := some "CH1", name := some "exec-1" }

/-- A reservation event missing every required key. -/
def evResBad : ReserveEvent :=
  { outboundFlightId := none, customerId := none, chargeId := none, name := none }

/-- A confirmation event naming `booking-1`. -/
def evCon0 : ConfirmEvent := { bookingId := some "booking-1" }

/-- A payment event with a non-empty charge id. -/
def evPay0 : PaymentEvent := { chargeId := some "CH1", customerId := some "C1" }

/-- A confirmation event missing the booking id. -/
def evConBad : ConfirmEvent := { bookingId := none }

/-- A payment event missing the charge id. -/
def evPayBad : PaymentEvent := { chargeId := none, customerId := none }

/-- Configuration with anomaly mode on and only the update-instead-of-insert
probability at 1. -/
def uiEnv : Env :=
  { anomalyModeActivate := true, cancelModeActivate := false, cancelModeProb := 0,
    reserveDowProb := 0, reserveUpdateItemProb := 1, confirmProb := 0,
    paymentProb := 0, paymentSleepDuration := 0 }

/-- Configuration with anomaly mode on and only the amplified-write
probability at 1. -/
def dowEnv : Env :=
  { anomalyModeActivate := true, cancelModeActivate := false, cancelModeProb := 0,
    reserveDowProb := 1, reserveUpdateItemProb := 0, confirmProb := 0,
    paymentProb := 0, paymentSleepDuration := 0 }

/-! ## Claim theorems -/

/-- Claim C2 (confirmed): for every invocation of each of the three handlers
in which the cancel draw triggers, the handler raises the simulated
cancellation error before any store interaction occurs (the trace carries no
put, update or upload), leaving the store unchanged by that invocation. -/
theorem cancel_triggers_raise_before_store_interaction :
    (∀ (env : Env) (st : Store) (ev : ReserveEvent) (r : ReserveRandoms),
        (reserveDecisions env r).cancel = true →
        (reserve_lambda_handler env st ev r).result = Except.error HandlerError.cancelRequest ∧
        (reserve_lambda_handler env st ev r).trace.filter Event.isStoreWrite = [] ∧
        (reserve_lambda_handler env st ev r).store = st) ∧
    (∀ (env : Env) (st : Store) (ev : ConfirmEvent) (r : ConfirmRandoms),
        (confirmDecisions env r).cancel = true →
        (confirm_lambda_handler env st ev r).result = Except.error HandlerError.cancelRequest ∧
        (confirm_lambda_handler env st ev r).trace.filter Event.isStoreWrite = [] ∧
        (confirm_lambda_handler env st ev r).store = st) ∧
    (∀ (env : Env) (st : Store) (ev : PaymentEvent) (r : PaymentRandoms),
        (paymentDecisions env r).cancel = true →
        (payment_lambda_handler env st ev r).result = Except.error HandlerError.cancelRequest ∧
        (payment_lambda_handler env st ev r).trace.filter Event.isStoreWrite = [] ∧
        (payment_lambda_handler env st ev r).store = st) := by
  refine ⟨?_, ?_, ?_⟩
  · intro env st ev r h
    simp only [reserve_lambda_handler, h, if_true]
    exact ⟨trivial, by decide, trivial⟩
  · intro env st ev r h
    simp only [confirm_lambda_handler, h, if_true]
    exact ⟨trivial, by decide, trivial⟩
  · intro env st ev r h
    simp only [payment_lambda_handler, h, if_true]
    exact ⟨trivial, by decide, trivial⟩

/-- Witness for C2: with cancel mode active, probability 1 and draw 0, all
three handlers raise the cancellation error without touching the store. -/
theorem cancel_triggers_raise_before_store_interaction_witness :
    ((reserveDecisions cancelEnv rRes0).cancel = true ∧
      (reserve_lambda_handler cancelEnv emptyStore evRes0 rRes0).result
        = Except.error HandlerError.cancelRequest ∧
      (reserve_lambda_handler cancelEnv emptyStore evRes0 rRes0).trace.filter
        Event.isStoreWrite = [] ∧
      (reserve_lambda_handler cancelEnv emptyStore evRes0 rRes0).store = emptyStore) ∧
    ((confirmDecisions cancelEnv rCon0).cancel = true ∧
      (confirm_lambda_handler cancelEnv emptyStore evCon0 rCon0).result
        = Except.error HandlerError.cancelRequest) ∧
    ((paymentDecisions cancelEnv rPay0).cancel = true ∧
      (payment_lambda_handler cancelEnv emptyStore evPay0 rPay0).result
        = Except.error HandlerError.cancelRequest) :=
  ⟨⟨by decide,
    cancel_triggers_raise_before_store_interaction.1 cancelEnv emptyStore evRes0 rRes0 (by decide)⟩,
   ⟨by decide,
    (cancel_triggers_raise_before_store_interaction.2.1 cancelEnv emptyStore evCon0 rCon0
      (by decide)).1⟩,
   ⟨by decide,
    (cancel_triggers_raise_before_store_interaction.2.2 cancelEnv emptyStore evPay0 rPay0
      (by decide)).1⟩⟩

/-- Configuration with anomaly mode on and both reservation variant
probabilities at 1. -/
def bothEnv : Env :=
  { anomalyModeActivate := true, cancelModeActivate := false, cancelModeProb := 0,
    reserveDowProb := 1, reserveUpdateItemProb := 1, confirmProb := 0,
    paymentProb := 0, paymentSleepDuration := 0 }

/-- Configuration with anomaly mode on and the confirmation anomaly
probability at 1. -/
def confirmAnomalyEnv : Env :=
  { anomalyModeActivate := true, cancelModeActivate := false, cancelModeProb := 0,
    reserveDowProb := 0, reserveUpdateItemProb := 0, confirmProb := 1,
    paymentProb := 0, paymentSleepDuration := 0 }

/-- Confirmation randoms whose variant-selection draw is exactly 0.5. -/
def rConHalf : ConfirmRandoms :=
  { primaryDraw := 0, variantDraw := mkRat 1 2, cancelDraw := 0, tokenBytes := [0, 0, 0, 0] }

/-- Counterexample to claim C3 as stated: in the confirmation handler with
anomaly mode on, probability 1 and primary draw 0 the conjunction
`anomaly_mode AND (r < p)` is true, yet when the variant-selection draw is
exactly 0.5 neither anomaly decision of the invocation is true, so no
anomaly-execution decision of this handler equals that conjunction. -/
theorem anomaly_decision_conjunction_counterexample :
    (confirmAnomalyEnv.anomalyModeActivate
      && decide (rConHalf.primaryDraw < confirmAnomalyEnv.confirmProb)) = true ∧
    (confirmDecisions confirmAnomalyEnv rConHalf).dataLeak = false ∧
    (confirmDecisions confirmAnomalyEnv rConHalf).configMisuse = false := by
  decide

/-- Claim C3 as amended: each per-variant anomaly decision — before the
reservation tie-break — and each cancel decision equals the conjunction of
the relevant global flag with the event that its uniform draw lies strictly
below its configured probability; in the confirmation handler the decision
that an anomaly executes equals that conjunction conjoined with the
variant-selection draw differing from 0.5. -/
theorem anomaly_decision_conjunction_amended (env : Env) (rr : ReserveRandoms)
    (rc : ConfirmRandoms) (rp : PaymentRandoms) :
    dow_executeAnomaly0 env rr
      = (env.anomalyModeActivate && decide (rr.dowDraw < env.reserveDowProb)) ∧
    update_item_executeAnomaly0 env rr
      = (env.anomalyModeActivate && decide (rr.updateItemDraw < env.reserveUpdateItemProb)) ∧
    (paymentDecisions env rp).dowED
      = (env.anomalyModeActivate && decide (rp.anomalyDraw < env.paymentProb)) ∧
    (reserveDecisions env rr).cancel
      = (env.cancelModeActivate && decide (rr.cancelDraw < env.cancelModeProb)) ∧
    (confirmDecisions env rc).cancel
      = (env.cancelModeActivate && decide (rc.cancelDraw < env.cancelModeProb)) ∧
    (paymentDecisions env rp).cancel
      = (env.cancelModeActivate && decide (rp.cancelDraw < env.cancelModeProb)) ∧
    ((confirmDecisions env rc).dataLeak || (confirmDecisions env rc).configMisuse)
      = (env.anomalyModeActivate && (decide (rc.primaryDraw < env.confirmProb)
          && decide (¬ rc.variantDraw = mkRat 1 2))) := by
  refine ⟨?_, ?_, ?_, ?_, ?_, ?_, ?_⟩
  · exact pyEqTrueAndChain_eq_and _ _
  · exact pyEqTrueAndChain_eq_and _ _
  · rfl
  · exact pyEqTrueAndChain_eq_and _ _
  · exact pyEqTrueAndChain_eq_and _ _
  · exact pyEqTrueAndChain_eq_and _ _
  · show (pyEqTrueAndChain _ _ || pyEqTrueAndChain _ _) = _
    rw [pyEqTrueAndChain_eq_and, pyEqTrueAndChain_eq_and, bool_or_factor,
      decide_lt_or_gt_eq_ne]

/-- Claim C6 (confirmed): when both the amplified-write draw and the
update-instead-of-insert draw independently trigger, the coin flip keeps
exactly one of the two (the amplified write below 0.5, the substituted
update otherwise), and in no invocation are both decisions true. -/
theorem reserve_variants_mutually_exclusive (env : Env) (r : ReserveRandoms) :
    ¬((reserveDecisions env r).dow = true ∧ (reserveDecisions env r).updateItem = true) ∧
    (dow_executeAnomaly0 env r = true → update_item_executeAnomaly0 env r = true →
      (reserveDecisions env r).dow = decide (r.tieDraw < mkRat 1 2) ∧
      (reserveDecisions env r).updateItem = !decide (r.tieDraw < mkRat 1 2)) := by
  refine ⟨reserveDecisions_not_both env r, ?_⟩
  intro h1 h2
  by_cases ht : r.tieDraw < mkRat 1 2
  · simp [reserveDecisions, reserveTieBreak, h1, h2, ht]
  · simp [reserveDecisions, reserveTieBreak, h1, h2, ht]

/-- Witness for C6: with both probabilities 1 and all draws 0 the tie flip
keeps the amplified write and disables the substituted update. -/
theorem reserve_variants_mutually_exclusive_witness :
    dow_executeAnomaly0 bothEnv rRes0 = true ∧
    update_item_executeAnomaly0 bothEnv rRes0 = true ∧
    (reserveDecisions bothEnv rRes0).dow = decide (rRes0.tieDraw < mkRat 1 2) ∧
    (reserveDecisions bothEnv rRes0).updateItem = !decide (rRes0.tieDraw < mkRat 1 2) :=
  ⟨by decide, by decide,
   (reserve_variants_mutually_exclusive bothEnv rRes0).2 (by decide) (by decide)⟩

/-- Claim C9 (confirmed): every payment invocation with a non-empty
`chargeId` in which the cancel path does not trigger returns exactly
`{receiptUrl := "test.com", price := 10}`; when the extended-sleep anomaly
triggers, the trace additionally contains the sleep of the configured
duration before the result is produced, and the returned value is unchanged;
the store is untouched. -/
theorem payment_returns_fixed_receipt (env : Env) (st : Store) (r : PaymentRandoms)
    (cid : String) (custId : Option String)
    (hcid : cid ≠ "")
    (hcan : (paymentDecisions env r).cancel = false) :
    (payment_lambda_handler env st ⟨some cid, custId⟩ r).result
      = Except.ok { receiptUrl := "test.com", price := 10 } ∧
    (payment_lambda_handler env st ⟨some cid, custId⟩ r).trace
      = paymentConfigReads
        ++ (if (paymentDecisions env r).dowED then [Event.sleep env.paymentSleepDuration]
            else []) ∧
    (payment_lambda_handler env st ⟨some cid, custId⟩ r).store = st := by
  simp [payment_lambda_handler, hcan, hcid, collect_payment]

/-- Witness for C9: a concrete quiet-configuration payment invocation. -/
theorem payment_returns_fixed_receipt_witness :
    ("CH1" : String) ≠ "" ∧ (paymentDecisions quietEnv rPay0).cancel = false ∧
    (payment_lambda_handler quietEnv emptyStore evPay0 rPay0).result
      = Except.ok { receiptUrl := "test.com", price := 10 } :=
  ⟨by decide, by decide,
   (payment_returns_fixed_receipt quietEnv emptyStore rPay0 "CH1" (some "C1")
     (by decide) (by decide)).1⟩

/-- Claim C10 (confirmed): in every confirmation invocation at most one of
the data-leakage and configuration-misuse variants executes: data leakage
only when the variant draw is strictly below 0.5, configuration misuse only
when it is strictly above 0.5; when the draw equals exactly 0.5 neither
executes even if the per-handler anomaly draw had triggered. -/
theorem confirm_variant_selection (env : Env) (r : ConfirmRandoms) :
    ((confirmDecisions env r).dataLeak && (confirmDecisions env r).configMisuse) = false ∧
    (confirmDecisions env r).dataLeak
      = (env.anomalyModeActivate &&
          (decide (r.primaryDraw < env.confirmProb) && decide (r.variantDraw < mkRat 1 2))) ∧
    (confirmDecisions env r).configMisuse
      = (env.anomalyModeActivate &&
          (decide (r.primaryDraw < env.confirmProb) && decide (r.variantDraw > mkRat 1 2))) ∧
    (r.variantDraw = mkRat 1 2 →
      (confirmDecisions env r).dataLeak = false ∧
      (confirmDecisions env r).configMisuse = false) := by
  have hxy : (decide (r.variantDraw < mkRat 1 2) && decide (r.variantDraw > mkRat 1 2))
      = false := by
    rcases lt_trichotomy r.variantDraw (mkRat 1 2) with h | h | h
    · simp [not_lt_of_gt h]
    · simp [h]
    · simp [not_lt_of_gt h]
  refine ⟨?_, ?_, ?_, ?_⟩
  · show (pyEqTrueAndChain _ _ && pyEqTrueAndChain _ _) = false
    rw [pyEqTrueAndChain_eq_and, pyEqTrueAndChain_eq_and]
    exact bool_and_pair_false _ _ _ _ hxy
  · exact pyEqTrueAndChain_eq_and _ _
  · exact pyEqTrueAndChain_eq_and _ _
  · intro h
    constructor
    · show pyEqTrueAndChain _ _ = false
      rw [pyEqTrueAndChain_eq_and]
      simp [h]
    · show pyEqTrueAndChain _ _ = false
      rw [pyEqTrueAndChain_eq_and]
      simp [h]

/-- Witness for C10: with the variant draw exactly 0.5 and the primary draw
triggering, neither variant executes. -/
theorem confirm_variant_selection_witness :
    rConHalf.variantDraw = mkRat 1 2 ∧
    (confirmDecisions confirmAnomalyEnv rConHalf).dataLeak = false ∧
    (confirmDecisions confirmAnomalyEnv rConHalf).configMisuse = false :=
  ⟨rfl, (confirm_variant_selection confirmAnomalyEnv rConHalf).2.2.2 rfl⟩

/-- Claim C4 (confirmed): when the substituted-operation variant triggers on
a fully populated reservation event (cancel not triggering, fresh booking
id), zero inserts of the intended booking record are performed — the
unrelated update against the fixed, unrelated key is issued instead — yet
the handler returns the freshly generated booking id, which refers to a
record that does not exist in the store. -/
theorem substituted_operation_dangling_booking (env : Env) (st : Store)
    (r : ReserveRandoms) (nm ofid cid tok : String)
    (hui : (reserveDecisions env r).updateItem = true)
    (hcan : (reserveDecisions env r).cancel = false)
    (hfresh : st r.bookingId = none)
    (hkey : r.bookingId ≠ reserveFixedKey) :
    (reserve_lambda_handler env st ⟨some ofid, some cid, some tok, some nm⟩ r).result
      = Except.ok r.bookingId ∧
    (reserve_lambda_handler env st ⟨some ofid, some cid, some tok, some nm⟩ r).trace.filter
      Event.isPut = [] ∧
    Event.updateItem reserveFixedKey
      ∈ (reserve_lambda_handler env st ⟨some ofid, some cid, some tok, some nm⟩ r).trace ∧
    (reserve_lambda_handler env st ⟨some ofid, some cid, some tok, some nm⟩ r).store
      r.bookingId = none := by
  have hdow : (reserveDecisions env r).dow = false := reserveDecisions_ui_imp_not_dow env r hui
  simp [reserve_lambda_handler, reserve_booking, hcan, hdow, hui, is_booking_request_valid,
    tablePutN, tableUpdateUncond, hkey, hfresh, Event.isPut, reserveConfigReads]

/-- Witness for C4: anomaly mode on, update-instead-of-insert probability 1,
all draws 0: the handler returns `booking-1` while the store still has no
record under that id. -/
theorem substituted_operation_dangling_booking_witness :
    (reserveDecisions uiEnv rRes0).updateItem = true ∧
    (reserveDecisions uiEnv rRes0).cancel = false ∧
    emptyStore rRes0.bookingId = none ∧
    rRes0.bookingId ≠ reserveFixedKey ∧
    ((reserve_lambda_handler uiEnv emptyStore evRes0 rRes0).result
        = Except.ok rRes0.bookingId ∧
      (reserve_lambda_handler uiEnv emptyStore evRes0 rRes0).trace.filter Event.isPut = [] ∧
      Event.updateItem reserveFixedKey
        ∈ (reserve_lambda_handler uiEnv emptyStore evRes0 rRes0).trace ∧
      (reserve_lambda_handler uiEnv emptyStore evRes0 rRes0).store rRes0.bookingId = none) :=
  ⟨by decide, by decide, rfl, by decide,
   substituted_operation_dangling_booking uiEnv emptyStore rRes0 "exec-1" "FL1" "C1" "CH1"
     (by decide) (by decide) rfl (by decide)⟩

/-- Claim C5 (confirmed): when the amplified-write variant triggers on a
fully populated reservation event with cancel not triggering, the put
operations in the trace are exactly 20 copies of the identical booking
record — no more, no less. -/
theorem amplified_write_exactly_twenty (env : Env) (st : Store)
    (r : ReserveRandoms) (nm ofid cid tok : String)
    (hdow : (reserveDecisions env r).dow = true)
    (hcan : (reserveDecisions env r).cancel = false) :
    (reserve_lambda_handler env st ⟨some ofid, some cid, some tok, some nm⟩ r).result
      = Except.ok r.bookingId ∧
    (reserve_lambda_handler env st ⟨some ofid, some cid, some tok, some nm⟩ r).trace.filter
        Event.isPut
      = List.replicate 20
          (Event.putItem (bookingItem nm ofid cid tok r.bookingId r.createdAt)) := by
  have hui : (reserveDecisions env r).updateItem = false :=
    reserveDecisions_dow_imp_not_ui env r hdow
  simp [reserve_lambda_handler, reserve_booking, hcan, hdow, hui, is_booking_request_valid,
    Event.isPut, reserveConfigReads, List.filter_replicate]

/-- Witness for C5: anomaly mode on, amplified-write probability 1, all
draws 0: exactly 20 identical puts appear in the trace. -/
theorem amplified_write_exactly_twenty_witness :
    (reserveDecisions dowEnv rRes0).dow = true ∧
    (reserveDecisions dowEnv rRes0).cancel = false ∧
    ((reserve_lambda_handler dowEnv emptyStore evRes0 rRes0).result
        = Except.ok rRes0.bookingId ∧
      (reserve_lambda_handler dowEnv emptyStore evRes0 rRes0).trace.filter Event.isPut
        = List.replicate 20
            (Event.putItem (bookingItem "exec-1" "FL1" "C1" "CH1"
              rRes0.bookingId rRes0.createdAt))) :=
  ⟨by decide, by decide,
   amplified_write_exactly_twenty dowEnv emptyStore rRes0 "exec-1" "FL1" "C1" "CH1"
     (by decide) (by decide)⟩

/-- Claim C7 (confirmed): for every confirmation request naming an existing
UNCONFIRMED booking, with anomaly and cancel modes disabled, the stored
record's status becomes CONFIRMED, its bookingReference is set to the
freshly generated token, and that token — of the fixed length 6 produced by
`token_urlsafe(4)` — is returned to the caller. -/
theorem confirm_unconfirmed_booking_success (env : Env) (st : Store) (r : ConfirmRandoms)
    (bid : String) (a b c d : ℕ) (item0 : Item)
    (hmode : env.anomalyModeActivate = false)
    (hcmode : env.cancelModeActivate = false)
    (hbid : bid ≠ "")
    (hbytes : r.tokenBytes = [a, b, c, d])
    (hst : st bid = some item0)
    (hid : getAttr item0 "id" = some (AttrVal.S bid))
    (hstatus : getAttr item0 "status" = some (AttrVal.S "UNCONFIRMED")) :
    (confirm_lambda_handler env st ⟨some bid⟩ r).result
      = Except.ok (token_urlsafe r.tokenBytes) ∧
    (confirm_lambda_handler env st ⟨some bid⟩ r).trace
      = confirmConfigReads ++ [Event.updateItem bid] ∧
    (∃ item1, (confirm_lambda_handler env st ⟨some bid⟩ r).store bid = some item1 ∧
      getAttr item1 "status" = some (AttrVal.S "CONFIRMED") ∧
      getAttr item1 "bookingReference"
        = some (AttrVal.S (token_urlsafe r.tokenBytes))) ∧
    (token_urlsafe r.tokenBytes).length = 6 := by
  have hcanc : (confirmDecisions env r).cancel = false := by
    simp [confirmDecisions, pyEqTrueAndChain_eq_and, hcmode]
  have hdl : (confirmDecisions env r).dataLeak = false := by
    simp [confirmDecisions, pyEqTrueAndChain_eq_and, hmode]
  have hpm : (confirmDecisions env r).configMisuse = false := by
    simp [confirmDecisions, pyEqTrueAndChain_eq_and, hmode]
  have hcond : (getAttr item0 "id" == some (AttrVal.S bid)) = true := by
    rw [hid]
    exact beq_self_eq_true _
  refine ⟨?_, ?_,
    ⟨setAttrs item0 [("bookingReference", AttrVal.S (token_urlsafe r.tokenBytes)),
      ("status", AttrVal.S "CONFIRMED")], ?_, ?_, ?_⟩, ?_⟩
  · simp [confirm_lambda_handler, confirm_booking, hcanc, hbid, tableUpdateCondIdEq, hst, hcond]
  · simp [confirm_lambda_handler, confirm_booking, hcanc, hbid, tableUpdateCondIdEq, hst, hcond,
      hdl, hpm]
  · simp [confirm_lambda_handler, confirm_booking, hcanc, hbid, tableUpdateCondIdEq, hst, hcond]
  · show getAttr (setAttr (setAttr item0 "bookingReference" _) "status" _) "status" = _
    rw [getAttr_setAttr_same]
  · show getAttr (setAttr (setAttr item0 "bookingReference" _) "status" _) "bookingReference" = _
    rw [getAttr_setAttr_ne _ _ _ _ (by decide), getAttr_setAttr_same]
  · rw [hbytes]
    exact token_urlsafe_length_four a b c d

/-- An existing UNCONFIRMED booking record for `booking-1`. -/
def unconfirmedItem : Item := bookingItem "exec-1" "FL1" "C1" "CH1" "booking-1" "2020-01-01 00:00:00"

/-- A store holding exactly the UNCONFIRMED `booking-1` record. -/
def oneBookingStore : Store := fun k => if k = "booking-1" then some unconfirmedItem else none

/-- Witness for C7: confirming `booking-1` against the one-record store with
everything disabled returns a 6-character reference and confirms the record. -/
theorem confirm_unconfirmed_booking_success_witness :
    quietEnv.anomalyModeActivate = false ∧
    quietEnv.cancelModeActivate = false ∧
    ("booking-1" : String) ≠ "" ∧
    rCon0.tokenBytes = [0, 0, 0, 0] ∧
    oneBookingStore "booking-1" = some unconfirmedItem ∧
    getAttr unconfirmedItem "id" = some (AttrVal.S "booking-1") ∧
    getAttr unconfirmedItem "status" = some (AttrVal.S "UNCONFIRMED") ∧
    ((confirm_lambda_handler quietEnv oneBookingStore evCon0 rCon0).result
        = Except.ok (token_urlsafe rCon0.tokenBytes) ∧
      (confirm_lambda_handler quietEnv oneBookingStore evCon0 rCon0).trace
        = confirmConfigReads ++ [Event.updateItem "booking-1"] ∧
      (∃ item1, (confirm_lambda_handler quietEnv oneBookingStore evCon0 rCon0).store
            "booking-1" = some item1 ∧
        getAttr item1 "status" = some (AttrVal.S "CONFIRMED") ∧
        getAttr item1 "bookingReference"
          = some (AttrVal.S (token_urlsafe rCon0.tokenBytes))) ∧
      (token_urlsafe rCon0.tokenBytes).length = 6) :=
  ⟨rfl, rfl, by decide, rfl, rfl, by decide, by decide,
   confirm_unconfirmed_booking_success quietEnv oneBookingStore rCon0 "booking-1" 0 0 0 0
     unconfirmedItem rfl rfl (by decide) rfl rfl (by decide) (by decide)⟩

/-- Claim C8 (confirmed): for every confirmation request whose booking id is
absent from the store (cancel not triggering), the conditional write fails
instead of creating a record: the handler surfaces the condition failure as
a BookingConfirmationException and the store — in particular the entry for
that id — is left unchanged. -/
theorem confirm_missing_booking_fails (env : Env) (st : Store) (r : ConfirmRandoms)
    (bid : String)
    (hbid : bid ≠ "")
    (hcan : (confirmDecisions env r).cancel = false)
    (hmissing : st bid = none) :
    (confirm_lambda_handler env st ⟨some bid⟩ r).result
      = Except.error HandlerError.confirmationFailed ∧
    (confirm_lambda_handler env st ⟨some bid⟩ r).store = st ∧
    (confirm_lambda_handler env st ⟨some bid⟩ r).store bid = none := by
  refine ⟨?_, ?_, ?_⟩ <;>
    simp [confirm_lambda_handler, confirm_booking, hcan, hbid, tableUpdateCondIdEq, hmissing]

/-- Witness for C8: confirming `missing-1` against the empty store fails
with the confirmation exception and creates nothing. -/
theorem confirm_missing_booking_fails_witness :
    ("missing-1" : String) ≠ "" ∧
    (confirmDecisions quietEnv rCon0).cancel = false ∧
    emptyStore "missing-1" = none ∧
    ((confirm_lambda_handler quietEnv emptyStore ⟨some "missing-1"⟩ rCon0).result
        = Except.error HandlerError.confirmationFailed ∧
      (confirm_lambda_handler quietEnv emptyStore ⟨some "missing-1"⟩ rCon0).store
        = emptyStore ∧
      (confirm_lambda_handler quietEnv emptyStore ⟨some "missing-1"⟩ rCon0).store
        "missing-1" = none) :=
  ⟨by decide, by decide, rfl,
   confirm_missing_booking_fails quietEnv emptyStore rCon0 "missing-1"
     (by decide) (by decide) rfl⟩

/-- Counterexample to claim C1 as stated: an invocation of the reservation
handler with every required key missing, in which the cancel draw triggers,
raises the simulated-cancellation error — not the invalid-request error —
so invalid input does not always fail validation. -/
theorem invalid_input_validation_counterexample :
    is_booking_request_valid evResBad = false ∧
    (reserve_lambda_handler cancelEnv emptyStore evResBad rRes0).result
      = Except.error HandlerError.cancelRequest := by
  constructor
  · decide
  · have hc : (reserveDecisions cancelEnv rRes0).cancel = true := by decide
    simp [reserve_lambda_handler, hc]

/-- Claim C1 as amended: provided the cancel draw does not trigger, every
invocation of any of the three handlers with invalid input raises its
invalid-request error having performed no store interaction and no
configuration lookup beyond the fixed fault-injection policy lookups (none
of which serves the main operation), leaving the store unchanged. -/
theorem invalid_input_fails_validation_amended :
    (∀ (env : Env) (st : Store) (ev : ReserveEvent) (r : ReserveRandoms),
        is_booking_request_valid ev = false →
        (reserveDecisions env r).cancel = false →
        (reserve_lambda_handler env st ev r).result
          = Except.error (HandlerError.invalidRequest "Invalid booking request") ∧
        (reserve_lambda_handler env st ev r).trace = reserveConfigReads ∧
        (reserve_lambda_handler env st ev r).store = st) ∧
    (∀ (env : Env) (st : Store) (ev : ConfirmEvent) (r : ConfirmRandoms),
        confirmRequestValid ev = false →
        (confirmDecisions env r).cancel = false →
        (confirm_lambda_handler env st ev r).result
          = Except.error (HandlerError.invalidRequest "Invalid booking ID") ∧
        (confirm_lambda_handler env st ev r).trace = confirmConfigReads ∧
        (confirm_lambda_handler env st ev r).store = st) ∧
    (∀ (env : Env) (st : Store) (ev : PaymentEvent) (r : PaymentRandoms),
        paymentRequestValid ev = false →
        (paymentDecisions env r).cancel = false →
        (payment_lambda_handler env st ev r).result
          = Except.error (HandlerError.invalidRequest "Invalid Charge ID") ∧
        (payment_lambda_handler env st ev r).trace
          = paymentConfigReads
            ++ (if (paymentDecisions env r).dowED then [Event.sleep env.paymentSleepDuration]
                else []) ∧
        (payment_lambda_handler env st ev r).store = st) := by
  refine ⟨?_, ?_, ?_⟩
  · intro env st ev r hv hc
    simp [reserve_lambda_handler, hc, hv]
  · intro env st ev r hv hc
    match hb : ev.bookingId with
    | none => simp [confirm_lambda_handler, hc, hb]
    | some s =>
        have hs : s = "" := by
          simpa [confirmRequestValid, hb] using hv
        simp [confirm_lambda_handler, hc, hb, hs]
  · intro env st ev r hv hc
    match hb : ev.chargeId with
    | none => simp [payment_lambda_handler, hc, hb]
    | some s =>
        have hs : s = "" := by
          simpa [paymentRequestValid, hb] using hv
        simp [payment_lambda_handler, hc, hb, hs]

/-- Witness for the amended C1: invalid events under the quiet
configuration raise the invalid-request errors with only the policy
lookups in the trace. -/
theorem invalid_input_fails_validation_witness :
    (is_booking_request_valid evResBad = false ∧
      (reserveDecisions quietEnv rRes0).cancel = false ∧
      (reserve_lambda_handler quietEnv emptyStore evResBad rRes0).result
        = Except.error (HandlerError.invalidRequest "Invalid booking request") ∧
      (reserve_lambda_handler quietEnv emptyStore evResBad rRes0).trace
        = reserveConfigReads) ∧
    (confirmRequestValid evConBad = false ∧
      (confirm_lambda_handler quietEnv emptyStore evConBad rCon0).result
        = Except.error (HandlerError.invalidRequest "Invalid booking ID")) ∧
    (paymentRequestValid evPayBad = false ∧
      (payment_lambda_handler quietEnv emptyStore evPayBad rPay0).result
        = Except.error (HandlerError.invalidRequest "Invalid Charge ID")) :=
  ⟨⟨by decide, by decide,
    (invalid_input_fails_validation_amended.1 quietEnv emptyStore evResBad rRes0
      (by decide) (by decide)).1,
    (invalid_input_fails_validation_amended.1 quietEnv emptyStore evResBad rRes0
      (by decide) (by decide)).2.1⟩,
   ⟨by decide,
    (invalid_input_fails_validation_amended.2.1 quietEnv emptyStore evConBad rCon0
      (by decide) (by decide)).1⟩,
   ⟨by decide,
    (invalid_input_fails_validation_amended.2.2 quietEnv emptyStore evPayBad rPay0
      (by decide) (by decide)).1⟩⟩

end Airline
